import Mathlib

/-!
Verification of the food-label OCR extraction core
(`src/ocr-service/main.py` of mumu9631/food-tag-ocr).

The Python source is shallowly embedded: each extractor becomes an
executable Lean function over `List Char` / `String`, the regular
expressions of the source are transcribed into an explicit backtracking
engine with Python `re.search` semantics (leftmost position first, then
backtracking priority: alternation left first, greedy quantifiers longest
first, lazy quantifiers shortest first), Python dicts become ordered
association lists, and CPython IEEE-754 double arithmetic is modelled
exactly by dyadic numbers (an integer mantissa times a power of two)
with round-to-nearest, ties-to-even at 53 significant bits.
-/

set_option maxRecDepth 1000000

deriving instance DecidableEq for Except

namespace FoodTag

/-! ### Python string primitives -/

/-- Unicode code points that CPython `str.strip()` / `\s` treat as
whitespace (the SRE whitespace set). -/
def pyWsRanges : List (Nat × Nat) :=
  [(0x09, 0x0d), (0x1c, 0x1f), (0x20, 0x20), (0x85, 0x85), (0xa0, 0xa0),
   (0x1680, 0x1680), (0x2000, 0x200a), (0x2028, 0x2029), (0x202f, 0x202f),
   (0x205f, 0x205f), (0x3000, 0x3000)]

def isPyWs (c : Char) : Bool :=
  pyWsRanges.any (fun p => p.1 ≤ c.toNat && c.toNat ≤ p.2)

def dropLeadingWs : List Char → List Char
  | [] => []
  | c :: r => if isPyWs c then dropLeadingWs r else c :: r

/-- Python `str.strip()` (no argument): trim whitespace on both ends. -/
def pyStripL (l : List Char) : List Char :=
  ((dropLeadingWs ((dropLeadingWs l).reverse)).reverse)

def pyStrip (s : String) : String := String.mk (pyStripL s.data)

def isInfixAux (needle : List Char) : List Char → Bool
  | [] => needle = []
  | s@(_ :: rest) => needle.isPrefixOf s || isInfixAux needle rest

/-- Python `needle in haystack` (substring containment). -/
def pyIn (needle haystack : String) : Bool :=
  isInfixAux needle.data haystack.data

/-- Python `haystack.find(needle)` restricted to the found case. -/
def pyFindAux (needle : List Char) : List Char → Nat → Option Nat
  | [], i => if needle = [] then some i else none
  | s@(_ :: rest), i =>
    if needle.isPrefixOf s then some i else pyFindAux needle rest (i + 1)

def pyFind (haystack needle : String) : Option Nat :=
  pyFindAux needle.data haystack.data 0

/-- Python `list.index(x)` (first occurrence), on the found case. -/
def pyIndexAux : List String → String → Nat → Nat
  | [], _, i => i
  | l :: r, x, i => if l = x then i else pyIndexAux r x (i + 1)

def pyIndex (lines : List String) (x : String) : Nat := pyIndexAux lines x 0

/-- Python slicing `s[idx:]`. -/
def pySliceFrom (s : String) (idx : Nat) : String := String.mk (s.data.drop idx)

/-- Python `'\n'.join(lines)`. -/
def joinLines : List String → String
  | [] => ""
  | [l] => l
  | l :: ls => l ++ "\n" ++ joinLines ls

/-! ### A small regular-expression engine with CPython `re` semantics

Only the constructs appearing in the source's patterns are supported:
character classes, `.`, sequencing, alternation, greedy and lazy
repetition, numbered capturing groups and the `$` position assertion. -/

inductive RE : Type where
  | eps : RE
  | cls : List (Char × Char) → RE
  | dot : RE
  | seq : RE → RE → RE
  | alt : RE → RE → RE
  | star : RE → RE
  | starL : RE → RE
  | grp : Nat → RE → RE
  | eos : RE

/-- Number of capturing groups, the length of Python `match.groups()`. -/
def numGroups : RE → Nat
  | .eps | .cls _ | .dot | .eos => 0
  | .seq a b | .alt a b => numGroups a + numGroups b
  | .star a | .starL a => numGroups a
  | .grp _ a => numGroups a + 1

/-- Node count, used to compute a sufficient fuel bound. -/
def reSize : RE → Nat
  | .eps | .cls _ | .dot | .eos => 1
  | .seq a b | .alt a b => reSize a + reSize b + 1
  | .star a | .starL a | .grp _ a => reSize a + 1

abbrev Caps := List (Nat × List Char)

def inCls (c : Char) (rs : List (Char × Char)) : Bool :=
  rs.any (fun p => p.1.toNat ≤ c.toNat && c.toNat ≤ p.2.toNat)

/-- All ways the pattern can match a prefix of `s`, as pairs of
(remaining input, captures), in backtracking priority order: the head is
the match CPython's engine commits to.  Every repetition body in the
source's patterns consumes at least one character, so the guard
`t.1.length < s.length` (CPython's empty-repeat rule) never cuts a
CPython-reachable branch, and fuel `(len+1)*(size+1)+1` is sufficient
because every recursive call decreases `(s.length, reSize r)`
lexicographically. -/
def reMatch : Nat → RE → List Char → Caps → List (List Char × Caps)
  | 0, _, _, _ => []
  | _ + 1, .eps, s, caps => [(s, caps)]
  | _ + 1, .cls rs, s, caps =>
    match s with
    | [] => []
    | c :: rest => if inCls c rs then [(rest, caps)] else []
  | _ + 1, .dot, s, caps =>
    match s with
    | [] => []
    | c :: rest => if c = '\n' then [] else [(rest, caps)]
  | fuel + 1, .seq a b, s, caps =>
    (reMatch fuel a s caps).flatMap (fun t => reMatch fuel b t.1 t.2)
  | fuel + 1, .alt a b, s, caps =>
    reMatch fuel a s caps ++ reMatch fuel b s caps
  | fuel + 1, .star a, s, caps =>
    ((reMatch fuel a s caps).flatMap (fun t =>
      if t.1.length < s.length then reMatch fuel (.star a) t.1 t.2 else []))
    ++ [(s, caps)]
  | fuel + 1, .starL a, s, caps =>
    (s, caps) ::
    ((reMatch fuel a s caps).flatMap (fun t =>
      if t.1.length < s.length then reMatch fuel (.starL a) t.1 t.2 else []))
  | fuel + 1, .grp n a, s, caps =>
    (reMatch fuel a s caps).map (fun t =>
      (t.1, (n, s.take (s.length - t.1.length)) :: t.2))
  | _ + 1, .eos, s, caps =>
    if s = [] || s = ['\n'] then [(s, caps)] else []

def reFuel (r : RE) (s : List Char) : Nat :=
  (s.length + 1) * (reSize r + 1) + 1

/-- A match: the whole matched text (`group(0)`) and the captures. -/
structure MatchRes where
  whole : List Char
  caps : Caps
deriving DecidableEq

/-- `re.search`: try the pattern at each start position, leftmost first;
the final position (end of string) is also tried. -/
def reSearchIn (r : RE) : List Char → Option MatchRes
  | [] =>
    match reMatch (reFuel r []) r [] [] with
    | t :: _ => some ⟨[], t.2⟩
    | [] => none
  | c :: rest =>
    match reMatch (reFuel r (c :: rest)) r (c :: rest) [] with
    | t :: _ => some ⟨(c :: rest).take ((c :: rest).length - t.1.length), t.2⟩
    | [] => reSearchIn r rest

def reSearch (r : RE) (s : String) : Option MatchRes := reSearchIn r s.data

/-- Python `match.group(0)`. -/
def grp0 (m : MatchRes) : String := String.mk m.whole

/-- Python `match.group(n)` for a group that participated in the match
(every group of the source's patterns participates whenever the pattern
matches). -/
def grpN (m : MatchRes) (n : Nat) : String :=
  String.mk (((m.caps.find? (fun p => p.1 == n)).map Prod.snd).getD [])

/-! Pattern construction helpers. -/

def rch (c : Char) : RE := .cls [(c, c)]

def rlit (s : String) : RE := s.data.foldr (fun c r => .seq (rch c) r) .eps

def rset (s : String) : RE := .cls (s.data.map (fun c => (c, c)))

def rseq (l : List RE) : RE := l.foldr .seq .eps

def raltL (l : List RE) : RE := l.foldr .alt (.cls [])

def ropt (r : RE) : RE := .alt r .eps

def rplus (r : RE) : RE := .seq r (.star r)

def rplusLazy (r : RE) : RE := .seq r (.starL r)

def rrep (r : RE) (n : Nat) : RE := rseq (List.replicate n r)

/-- Greedy `r{m,n}`: `m` mandatory copies then `n-m` optional ones. -/
def rrepRange (r : RE) (m n : Nat) : RE :=
  rseq (List.replicate m r ++ List.replicate (n - m) (ropt r))

def rdigit : RE := .cls [('0', '9')]

def rws : RE := .cls (pyWsRanges.map (fun p => (Char.ofNat p.1, Char.ofNat p.2)))

/-- The class `[:：]` (half- and full-width colon). -/
def rcolon : RE := rset ":："

/-- The class `[:：\s]`. -/
def rcolonWs : RE :=
  .cls ((':', ':') :: ('：', '：') ::
    pyWsRanges.map (fun p => (Char.ofNat p.1, Char.ofNat p.2)))

/-- `\d+\.?\d*` -/
def rnum : RE := rseq [rplus rdigit, ropt (rch '.'), .star rdigit]

/-- `[一-龥]` (the CJK block used by the source). -/
def rcjk : RE := .cls [(Char.ofNat 0x4e00, Char.ofNat 0x9fa5)]

/-- `(?:\n|$)` -/
def rEolOrEnd : RE := .alt (rch '\n') .eos

/-! ### CPython float arithmetic, modelled exactly

Every float reaching the NRV computation is non-negative, so a double is
represented as a dyadic `mant * 2 ^ exp` with a natural mantissa
(`mant = 0` encodes `0.0`), and each operation rounds the exact rational
result to 53 significant bits, to nearest, ties to even — exactly IEEE-754
binary64 (the values involved stay far from overflow and underflow). -/

/-- `⌊log₂ n⌋` for `n ≥ 1`, by fuelled structural recursion (so that the
kernel can evaluate it). -/
def log2F : Nat → Nat → Nat
  | 0, _ => 0
  | fuel + 1, n => if 2 ≤ n then log2F fuel (n / 2) + 1 else 0

def natLog2 (n : Nat) : Nat := log2F n n

structure Fl where
  mant : Nat
  exp : Int
deriving DecidableEq

/-- Round `p / q` to an integer, to nearest, ties to even. -/
def rheNat (p q : Nat) : Nat :=
  let f := p / q
  let r := p % q
  if 2 * r < q then f
  else if q < 2 * r then f + 1
  else if f % 2 = 0 then f else f + 1

/-- Whether `p / q < 2 ^ e`. -/
def ltPow2 (p q : Nat) (e : Int) : Bool :=
  if 0 ≤ e then p < 2 ^ e.toNat * q else p * 2 ^ (-e).toNat < q

/-- The unique `e` with `2 ^ e ≤ p / q < 2 ^ (e + 1)` (for `p, q ≥ 1`). -/
def findExpFrac (p q : Nat) : Int :=
  let e0 : Int := (natLog2 p : Int) - (natLog2 q : Int)
  if ltPow2 p q e0 then e0 - 1 else e0

/-- Round the rational `(p / q) * 2 ^ shift` to binary64. -/
def roundToFl (p q : Nat) (shift : Int) : Fl :=
  if p = 0 then ⟨0, 0⟩
  else
    let e := findExpFrac p q
    let s := e - 52
    let mant :=
      if 0 ≤ s then rheNat p (q * 2 ^ s.toNat)
      else rheNat (p * 2 ^ (-s).toNat) q
    ⟨mant, s + shift⟩

/-- Float multiplication. -/
def flMul (x y : Fl) : Fl :=
  if x.mant = 0 || y.mant = 0 then ⟨0, 0⟩
  else roundToFl (x.mant * y.mant) 1 (x.exp + y.exp)

/-- Float division by a positive integer (the NRV references). -/
def flDivNat (x : Fl) (n : Nat) : Fl :=
  if x.mant = 0 then ⟨0, 0⟩ else roundToFl x.mant n x.exp

/-- Float multiplication by a non-negative integer (the literal `100`). -/
def flMulNat (x : Fl) (n : Nat) : Fl :=
  if x.mant = 0 || n = 0 then ⟨0, 0⟩ else roundToFl (x.mant * n) 1 x.exp

/-- Python `int()` on a non-negative float: truncation. -/
def flTrunc (x : Fl) : Nat :=
  if 0 ≤ x.exp then x.mant * 2 ^ x.exp.toNat else x.mant / 2 ^ (-x.exp).toNat

/-- The exact rational value of a modelled float (for specification-side
statements only). -/
def Fl.toRat (x : Fl) : ℚ := (x.mant : ℚ) * (2 : ℚ) ^ x.exp

def digitsVal (l : List Char) : Nat :=
  l.foldl (fun n c => n * 10 + (c.toNat - 48)) 0

/-- Python `float(s)` for a string matched by `\d+\.?\d*`: correctly
rounded decimal-to-binary conversion. -/
def flOfStr (s : String) : Fl :=
  let ip := s.data.takeWhile (fun c => c ≠ '.')
  let fp := match s.data.dropWhile (fun c => c ≠ '.') with
    | [] => []
    | _ :: t => t
  roundToFl (digitsVal ip * 10 ^ fp.length + digitsVal fp) (10 ^ fp.length) 0

/-- The float literal `4.184` of the source. -/
def fl4p184 : Fl := roundToFl 4184 1000 0

/-- The float literal `0.1` of the source (the confidence threshold). -/
def fl0p1 : Fl := roundToFl 1 10 0

/-- Decimal representation of a natural number, as Python's `str`. -/
def natDecDigits : Nat → Nat → List Char
  | 0, _ => []
  | fuel + 1, n =>
    if n = 0 then []
    else natDecDigits fuel (n / 10) ++ [Char.ofNat (48 + n % 10)]

def natToDecStr (n : Nat) : String :=
  if n = 0 then "0" else String.mk (natDecDigits (n + 1) n)

/-! ### Python dicts as ordered association lists -/

abbrev PyDict := List (String × String)

def pyGet : PyDict → String → Option String
  | [], _ => none
  | (k, v) :: r, key => if k = key then some v else pyGet r key

def pyContains (d : PyDict) (key : String) : Bool := (pyGet d key).isSome

/-- Python `d[key] = val`: replace in place, else append (insertion
order is preserved, as for a CPython dict). -/
def pySet : PyDict → String → String → PyDict
  | [], key, val => [(key, val)]
  | (k, v) :: r, key, val =>
    if k = key then (k, val) :: r else (k, v) :: pySet r key val

/-! ### `calculate_nrv` -/

/-- `(\d+\.?\d*)` of `calculate_nrv`. -/
def numValPat : RE := .grp 1 rnum

/-- `(kcal|千卡|kJ|千焦)` of `calculate_nrv`. -/
def unitTokPat : RE := .grp 1 (raltL [rlit "kcal", rlit "千卡", rlit "kJ", rlit "千焦"])

/-- The NRV reference values of the source (GB28050-2011). -/
def nrv_values : List (String × Nat) :=
  [("energy", 8400), ("protein", 60), ("fat", 60),
   ("carbohydrate", 300), ("sugar", 50), ("sodium", 2000)]

/-- One iteration of the loop body of `calculate_nrv`. -/
def nrvStep (nutrition : PyDict) (kv : String × Nat) : PyDict :=
  match pyGet nutrition kv.1 with
  | none => nutrition
  | some v =>
    if v = "" then nutrition
    else
      match reSearch numValPat v with
      | none => nutrition
      | some vm =>
        let value := flOfStr (grpN vm 1)
        let value :=
          match reSearch unitTokPat v with
          | some um =>
            if grpN um 1 = "kcal" ∨ grpN um 1 = "千卡" then flMul value fl4p184
            else value
          | none => value
        let pct : Nat :=
          if kv.1 = "energy" then flTrunc (flMulNat (flDivNat value kv.2) 100)
          else flTrunc (flMulNat (flDivNat value kv.2) 100)
        pySet nutrition (kv.1 ++ "NRV") (natToDecStr pct ++ "%")

def calculate_nrv (nutrition : PyDict) : PyDict :=
  nrv_values.foldl nrvStep nutrition

/-! ### The field extractors -/

/-- `[名称][:：]\s*(.+)` -/
def namePat : RE := rseq [rset "名称", rcolon, .star rws, .grp 1 (rplus .dot)]

def foodNameLabeled : List String → Option String
  | [] => none
  | line :: rest =>
    if pyIn "食品名称" line || pyIn "产品名称" line then
      match reSearch namePat line with
      | some m => some (pyStrip (grpN m 1))
      | none => foodNameLabeled rest
    else foodNameLabeled rest

def foodNameFallback : List String → Option String
  | [] => none
  | line :: rest =>
    if 2 < line.length ∧ line.length < 50 then some (pyStrip line)
    else foodNameFallback rest

def extract_food_name (text_lines : List String) (_full_text : String) :
    Option String :=
  match foodNameLabeled text_lines with
  | some r => some r
  | none => foodNameFallback text_lines

/-- `[配料表|成分|原料][:：]\s*(.+)` (a character class in the source). -/
def ingPat : RE := rseq [rset "配料表|成分|原料", rcolon, .star rws, .grp 1 (rplus .dot)]

/-- The continuation loop of `extract_ingredients`: append the stripped
text of up to the 4 following lines, breaking once the accumulated
length exceeds 50. -/
def ingContinue : List String → String → String
  | [], acc => acc
  | l :: rest, acc =>
    if pyStrip l ≠ "" then
      let acc2 := acc ++ " " ++ pyStrip l
      if 50 < acc2.length then acc2 else ingContinue rest acc2
    else ingContinue rest acc

def ingLoop (text_lines : List String) : List String → Option String
  | [] => none
  | line :: rest =>
    if ["配料", "成分", "原料"].any (fun kw => pyIn kw line) then
      match reSearch ingPat line with
      | some m =>
        let ingredients := pyStrip (grpN m 1)
        let ingredients :=
          if ingredients.length < 10 then
            let idx := pyIndex text_lines line
            ingContinue ((text_lines.drop (idx + 1)).take 4) ingredients
          else ingredients
        some (pyStrip ingredients)
      | none => ingLoop text_lines rest
    else ingLoop text_lines rest

def extract_ingredients (text_lines : List String) (_full_text : String) :
    Option String :=
  ingLoop text_lines text_lines

/-- `净含量[:：]\s*(\d+\.?\d*)\s*([克gG千克kgK毫升mlML升L])` -/
def netPat1 : RE :=
  rseq [rlit "净含量", rcolon, .star rws, .grp 1 rnum, .star rws,
    .grp 2 (rset "克gG千克kgK毫升mlML升L")]

/-- `净含量[:：]\s*(\d+\.?\d*)\s*([克千克克毫升升]+)` -/
def netPat2 : RE :=
  rseq [rlit "净含量", rcolon, .star rws, .grp 1 rnum, .star rws,
    .grp 2 (rplus (rset "克千克克毫升升"))]

/-- `(\d+\.?\d*)\s*[克gG][克gG]?\s*(?:/\s*[袋瓶盒包箱])` -/
def netPat3 : RE :=
  rseq [.grp 1 rnum, .star rws, rset "克gG", ropt (rset "克gG"), .star rws,
    rch '/', .star rws, rset "袋瓶盒包箱"]

def netLoop : List RE → String → Option String
  | [], _ => none
  | p :: ps, full_text =>
    match reSearch p full_text with
    | some m =>
      some (grpN m 1 ++ (if 1 < numGroups p then grpN m 2 else "克"))
    | none => netLoop ps full_text

def extract_net_content (full_text : String) : Option String :=
  netLoop [netPat1, netPat2, netPat3] full_text

/-- The `return match.group(1).strip()` pattern loop shared by several
extractors. -/
def firstGrp1Stripped : List RE → String → Option String
  | [], _ => none
  | p :: ps, full_text =>
    match reSearch p full_text with
    | some m => some (pyStrip (grpN m 1))
    | none => firstGrp1Stripped ps full_text

/-- `规格[:：]\s*(.+?)(?:\n|$)` -/
def specPat1 : RE :=
  rseq [rlit "规格", rcolon, .star rws, .grp 1 (rplusLazy .dot), rEolOrEnd]

/-- `(\d+[一-龥]/[一-龥]+)` -/
def specPat2 : RE := .grp 1 (rseq [rplus rdigit, rcjk, rch '/', rplus rcjk])

/-- `(\d+)[克gGg]/[盒瓶包袋]` -/
def specPat3 : RE :=
  rseq [.grp 1 (rplus rdigit), rset "克gGg", rch '/', rset "盒瓶包袋"]

def extract_specification (full_text : String) : Option String :=
  firstGrp1Stripped [specPat1, specPat2, specPat3] full_text

def producerKeywords : List String :=
  ["生产商", "生产厂家", "制造商", "委托生产企业", "生产者"]

/-- `<keyword>[:：]\s*(.+?)(?:\n|地址|电话)` -/
def producerPat (kw : String) : RE :=
  rseq [rlit kw, rcolon, .star rws, .grp 1 (rplusLazy .dot),
    raltL [rch '\n', rlit "地址", rlit "电话"]]

def producerLoop (full_text : String) : List String → Option String
  | [] => none
  | kw :: rest =>
    if pyIn kw full_text then
      let idx := (pyFind full_text kw).getD 0
      match reSearch (producerPat kw) (pySliceFrom full_text idx) with
      | some m => some (pyStrip (grpN m 1))
      | none => producerLoop full_text rest
    else producerLoop full_text rest

def producerFallback : List String → Option String
  | [] => none
  | line :: rest =>
    if pyIn "有限公司" line && !(pyIn "地址" line) && line.length < 50 then
      some (pyStrip line)
    else producerFallback rest

def extract_producer (text_lines : List String) (full_text : String) :
    Option String :=
  match producerLoop full_text producerKeywords with
  | some r => some r
  | none => producerFallback text_lines

/-- `地址[:：]\s*(.+)` -/
def addressPat : RE := rseq [rlit "地址", rcolon, .star rws, .grp 1 (rplus .dot)]

def addressLoop (text_lines : List String) : List String → Option String
  | [] => none
  | line :: rest =>
    if pyIn "地址" line then
      match reSearch addressPat line with
      | some m =>
        let address := pyStrip (grpN m 1)
        let address :=
          if address.length < 10 then
            match text_lines[pyIndex text_lines line + 1]? with
            | some nxt => address ++ " " ++ pyStrip nxt
            | none => address
          else address
        some address
      | none => addressLoop text_lines rest
    else addressLoop text_lines rest

def extract_address (text_lines : List String) (_full_text : String) :
    Option String :=
  addressLoop text_lines text_lines

/-- `\d{3,4}[-\s]?\d{7,8}` -/
def phoneNum : RE :=
  rseq [rrepRange rdigit 3 4,
    ropt (.cls (('-', '-') :: pyWsRanges.map (fun p => (Char.ofNat p.1, Char.ofNat p.2)))),
    rrepRange rdigit 7 8]

/-- `电话[:：]\s*(\d{3,4}[-\s]?\d{7,8})` -/
def contactPat1 : RE := rseq [rlit "电话", rcolon, .star rws, .grp 1 phoneNum]

/-- `联系方式[:：]\s*(.+?)(?:\n|$)` -/
def contactPat2 : RE :=
  rseq [rlit "联系方式", rcolon, .star rws, .grp 1 (rplusLazy .dot), rEolOrEnd]

/-- `(\d{3,4}[-\s]?\d{7,8})` -/
def contactPat3 : RE := .grp 1 phoneNum

def extract_contact_info (full_text : String) : Option String :=
  firstGrp1Stripped [contactPat1, contactPat2, contactPat3] full_text

/-- The date pattern `生产日期[:：]\s*(\d{4}X\d{1,2}Y\d{1,2}[日]?)` where
`X` is the class of dash, slash and `年` and `Y` the class of dash,
slash and `月`. -/
def datePat1 : RE :=
  rseq [rlit "生产日期", rcolon, .star rws,
    .grp 1 (rseq [rrep rdigit 4, rset "-/年", rrepRange rdigit 1 2, rset "-/月",
      rrepRange rdigit 1 2, ropt (rset "日")])]

/-- `生产日期[:：]\s*(\d{4}\.\d{1,2}\.\d{1,2})` -/
def datePat2 : RE :=
  rseq [rlit "生产日期", rcolon, .star rws,
    .grp 1 (rseq [rrep rdigit 4, rch '.', rrepRange rdigit 1 2, rch '.',
      rrepRange rdigit 1 2])]

/-- `见封口|见瓶身|见包装` — note: no capturing group. -/
def datePat3 : RE := raltL [rlit "见封口", rlit "见瓶身", rlit "见包装"]

/-- The pattern loop of `extract_production_date`; Python evaluates
`match.group(1)` on whichever pattern matched first, which raises
`IndexError: no such group` when that pattern has no capturing group. -/
def prodDateLoop : List RE → String → Except String (Option String)
  | [], _ => .ok none
  | p :: ps, full_text =>
    match reSearch p full_text with
    | some m =>
      if 1 ≤ numGroups p then .ok (some (pyStrip (grpN m 1)))
      else .error "no such group"
    | none => prodDateLoop ps full_text

def extract_production_date (full_text : String) : Except String (Option String) :=
  prodDateLoop [datePat1, datePat2, datePat3] full_text

/-- `保质期[:：]\s*(\d+)\s*([个月天年周])` -/
def shelfPat1 : RE :=
  rseq [rlit "保质期", rcolon, .star rws, .grp 1 (rplus rdigit), .star rws,
    .grp 2 (rset "个月天年周")]

/-- `保质期[:：]\s*(.+?)(?:\n|$)` -/
def shelfPat2 : RE :=
  rseq [rlit "保质期", rcolon, .star rws, .grp 1 (rplusLazy .dot), rEolOrEnd]

def shelfLoop : List RE → String → Option String
  | [], _ => none
  | p :: ps, full_text =>
    match reSearch p full_text with
    | some m =>
      if 1 < numGroups p then some (grpN m 1 ++ grpN m 2)
      else some (pyStrip (grpN m 1))
    | none => shelfLoop ps full_text

def extract_shelf_life (full_text : String) : Option String :=
  shelfLoop [shelfPat1, shelfPat2] full_text

/-- The continuation loop of `extract_storage_conditions`: append up to
the next 2 lines, breaking at an empty line or one containing
`生产` / `厂址` / `电话`. -/
def storageContinue : List String → String → String
  | [], acc => acc
  | l :: rest, acc =>
    if pyStrip l ≠ "" && !(["生产", "厂址", "电话"].any (fun kw => pyIn kw l)) then
      storageContinue rest (acc ++ " " ++ pyStrip l)
    else acc

def storageLoop (text_lines : List String) : List String → Option String
  | [] => none
  | line :: rest =>
    if ["贮存", "保存", "储藏", "存放"].any (fun kw => pyIn kw line) then
      let idx := pyIndex text_lines line
      some (storageContinue ((text_lines.drop (idx + 1)).take 2) (pyStrip line))
    else storageLoop text_lines rest

def extract_storage_conditions (text_lines : List String) (_full_text : String) :
    Option String :=
  storageLoop text_lines text_lines

/-- `SC[1|2]\d{13}` — a character class `[1|2]` followed by 13 digits,
so it requires 14 characters after `SC`. -/
def licPat1 : RE := rseq [rlit "SC", rset "1|2", rrep rdigit 13]

/-- `QS\d{12}` -/
def licPat2 : RE := rseq [rlit "QS", rrep rdigit 12]

/-- `生产许可证编号[:：]\s*(SC\d+)` -/
def licPat3 : RE :=
  rseq [rlit "生产许可证编号", rcolon, .star rws, .grp 1 (rseq [rlit "SC", rplus rdigit])]

/-- The loop of `extract_license_number`: `group(0)` for patterns that
start with `SC`/`QS`, else `group(1)`. -/
def licLoop : List (RE × Bool) → String → Option String
  | [], _ => none
  | (p, wholeMatch) :: ps, full_text =>
    match reSearch p full_text with
    | some m => some (if wholeMatch then grp0 m else grpN m 1)
    | none => licLoop ps full_text

def extract_license_number (full_text : String) : Option String :=
  licLoop [(licPat1, true), (licPat2, true), (licPat3, false)] full_text

/-- `[A-Z]{1,2}/[T]\s*\d+(?:\.\d+)?` -/
def stdCore : RE :=
  rseq [rrepRange (.cls [('A', 'Z')]) 1 2, rch '/', rset "T", .star rws,
    rplus rdigit, ropt (rseq [rch '.', rplus rdigit])]

/-- `产品标准代号[:：]\s*([A-Z]{1,2}/[T]\s*\d+(?:\.\d+)?)` -/
def stdPat1 : RE := rseq [rlit "产品标准代号", rcolon, .star rws, .grp 1 stdCore]

/-- `GB\s*/?\s*T\s*\d+(?:\.\d+)?` -/
def stdPat2 : RE :=
  rseq [rlit "GB", .star rws, ropt (rch '/'), .star rws, rch 'T', .star rws,
    rplus rdigit, ropt (rseq [rch '.', rplus rdigit])]

/-- `QB\s*/?\s*\d+(?:\.\d+)?` -/
def stdPat3 : RE :=
  rseq [rlit "QB", .star rws, ropt (rch '/'), .star rws, rplus rdigit,
    ropt (rseq [rch '.', rplus rdigit])]

/-- The `group(1) if the pattern has groups else group(0)` loop shared by
`extract_standard_code` and `extract_barcode`. -/
def grpOrWholeLoop : List RE → String → Option String
  | [], _ => none
  | p :: ps, full_text =>
    match reSearch p full_text with
    | some m => some (if 0 < numGroups p then grpN m 1 else grp0 m)
    | none => grpOrWholeLoop ps full_text

def extract_standard_code (full_text : String) : Option String :=
  grpOrWholeLoop [stdPat1, stdPat2, stdPat3, stdCore] full_text

/-- `质量等级[:：]\s*(.+?)(?:\n|$)` -/
def qualPat1 : RE :=
  rseq [rlit "质量等级", rcolon, .star rws, .grp 1 (rplusLazy .dot), rEolOrEnd]

/-- `等级[:：]\s*([一二三四特优]+等)` -/
def qualPat2 : RE :=
  rseq [rlit "等级", rcolon, .star rws, .grp 1 (rseq [rplus (rset "一二三四特优"), rset "等"])]

/-- `([一二三四特优]+等品)` -/
def qualPat3 : RE := .grp 1 (rseq [rplus (rset "一二三四特优"), rlit "等品"])

def extract_quality_grade (full_text : String) : Option String :=
  firstGrp1Stripped [qualPat1, qualPat2, qualPat3] full_text

def allergenKeywords : List String :=
  ["含有", "过敏", "致敏物质", "过敏原", "花生", "坚果", "牛奶", "乳制品", "鸡蛋",
   "大豆", "小麦", "鱼类", "甲壳类", "芝麻"]

/-- `(?:致敏物质|过敏原|含有)[:：]?\s*(.+?)(?:\n|$)` -/
def allergenPat : RE :=
  rseq [raltL [rlit "致敏物质", rlit "过敏原", rlit "含有"], ropt rcolon, .star rws,
    .grp 1 (rplusLazy .dot), rEolOrEnd]

def allergenLoop (full_text : String) : List String → Option String
  | [] => none
  | kw :: rest =>
    if pyIn kw full_text then
      match reSearch allergenPat full_text with
      | some m => some (pyStrip (grpN m 1))
      | none => some ("含有" ++ kw)
    else allergenLoop full_text rest

def extract_allergens (full_text : String) : Option String :=
  allergenLoop full_text allergenKeywords

/-- `能量[:：\s]*(\d+\.?\d*)\s*(kJ|千焦|kcal|千卡)` -/
def energyPat1 : RE :=
  rseq [rlit "能量", .star rcolonWs, .grp 1 rnum, .star rws,
    .grp 2 (raltL [rlit "kJ", rlit "千焦", rlit "kcal", rlit "千卡"])]

/-- `能量\s*(\d+\.?\d*)\s*(千焦|kJ)` -/
def energyPat2 : RE :=
  rseq [rlit "能量", .star rws, .grp 1 rnum, .star rws,
    .grp 2 (raltL [rlit "千焦", rlit "kJ"])]

/-- `蛋白质[:：\s]*(\d+\.?\d*)\s*g` — note: the unit `g` is outside the
capturing group. -/
def proteinPat : RE := rseq [rlit "蛋白质", .star rcolonWs, .grp 1 rnum, .star rws, rch 'g']

/-- `脂肪[:：\s]*(\d+\.?\d*)\s*g` -/
def fatPat : RE := rseq [rlit "脂肪", .star rcolonWs, .grp 1 rnum, .star rws, rch 'g']

/-- `碳水化合物[:：\s]*(\d+\.?\d*)\s*g` -/
def carbPat : RE := rseq [rlit "碳水化合物", .star rcolonWs, .grp 1 rnum, .star rws, rch 'g']

/-- `糖[:：\s]*(\d+\.?\d*)\s*g` -/
def sugarPat : RE := rseq [rlit "糖", .star rcolonWs, .grp 1 rnum, .star rws, rch 'g']

/-- `钠[:：\s]*(\d+\.?\d*)\s*mg` -/
def sodiumPat : RE := rseq [rlit "钠", .star rcolonWs, .grp 1 rnum, .star rws, rlit "mg"]

def nutritionPatterns : List (String × List RE) :=
  [("energy", [energyPat1, energyPat2]), ("protein", [proteinPat]),
   ("fat", [fatPat]), ("carbohydrate", [carbPat]), ("sugar", [sugarPat]),
   ("sodium", [sodiumPat])]

def firstPatMatch : List RE → String → Option (RE × MatchRes)
  | [], _ => none
  | p :: ps, full_text =>
    match reSearch p full_text with
    | some m => some (p, m)
    | none => firstPatMatch ps full_text

/-- The inline pass of `extract_nutrition`. -/
def nutritionInline (full_text : String) : PyDict :=
  nutritionPatterns.foldl (fun nutrition kp =>
    match firstPatMatch kp.2 full_text with
    | some (p, m) =>
      pySet nutrition kp.1 (grpN m 1 ++ (if 1 < numGroups p then grpN m 2 else ""))
    | none => nutrition) []

/-- `<keyword>[:：\s]*(\d+\.?\d*)\s*([a-zA-Z一-龥]+)` -/
def tablePat (kw : String) : RE :=
  rseq [rlit kw, .star rcolonWs, .grp 1 rnum, .star rws,
    .grp 2 (rplus (.cls [('a', 'z'), ('A', 'Z'), (Char.ofNat 0x4e00, Char.ofNat 0x9fa5)]))]

def nutritionKeyMap : List (String × String) :=
  [("能量", "energy"), ("蛋白质", "protein"), ("脂肪", "fat"),
   ("碳水化合物", "carbohydrate"), ("糖", "sugar"), ("钠", "sodium")]

def tableKeywords : List String := ["能量", "蛋白质", "脂肪", "碳水化合物", "糖", "钠"]

def tableLineStep (nutrition : PyDict) (line : String) : PyDict :=
  tableKeywords.foldl (fun nutrition kw =>
    if pyIn kw line then
      match reSearch (tablePat kw) line with
      | some m =>
        match (nutritionKeyMap.find? (fun p => p.1 == kw)).map Prod.snd with
        | some enKey => pySet nutrition enKey (grpN m 1 ++ grpN m 2)
        | none => nutrition
      | none => nutrition
    else nutrition) nutrition

def extract_nutrition_from_table (text_lines : List String) : PyDict :=
  text_lines.foldl tableLineStep []

def extract_nutrition (text_lines : List String) (full_text : String) : PyDict :=
  let nutrition := nutritionInline full_text
  let nutrition :=
    if nutrition = [] then extract_nutrition_from_table text_lines else nutrition
  if nutrition ≠ [] then calculate_nrv nutrition else nutrition

def warningLoop : List String → Option String
  | [] => none
  | line :: rest =>
    if ["警示", "注意", "警告"].any (fun kw => pyIn kw line) then some (pyStrip line)
    else warningLoop rest

def extract_warning (text_lines : List String) (_full_text : String) :
    Option String :=
  warningLoop text_lines

def extract_irradiated (full_text : String) : Option String :=
  if pyIn "辐照" full_text || pyIn "本产品经辐照" full_text then some "本品已辐照"
  else none

/-- `条码[:：]\s*(\d{13})` -/
def barcodePat1 : RE := rseq [rlit "条码", rcolon, .star rws, .grp 1 (rrep rdigit 13)]

/-- `69\d{11}` -/
def barcodePat2 : RE := rseq [rlit "69", rrep rdigit 11]

def extract_barcode (full_text : String) : Option String :=
  grpOrWholeLoop [barcodePat1, barcodePat2] full_text

/-! ### Line-corpus builder and label assembler -/

/-- Float strict comparison (both operands non-negative doubles). -/
def flLt (x y : Fl) : Bool :=
  if x.exp ≤ y.exp then x.mant < y.mant * 2 ^ (y.exp - x.exp).toNat
  else x.mant * 2 ^ (x.exp - y.exp).toNat < y.mant

/-- The region loop of `extract_text_lines`: keep the stripped text of
regions with confidence `> 0.1` and non-empty stripped text, in order. -/
def textLinesLoop : List (String × Fl) → List String
  | [] => []
  | (text, confidence) :: rest =>
    if flLt fl0p1 confidence && pyStrip text ≠ "" then
      pyStrip text :: textLinesLoop rest
    else textLinesLoop rest

/-- `extract_text_lines`: the OCR engine result is a list of pages, each
a list of (text, confidence) regions; only `ocr_result[0]` is read. -/
def extract_text_lines (ocr_result : List (List (String × Fl))) : List String :=
  match ocr_result with
  | [] => []
  | page :: _ => textLinesLoop page

inductive FieldVal where
  | str : String → FieldVal
  | nut : PyDict → FieldVal
deriving DecidableEq

abbrev Record := List (String × FieldVal)

/-- `parse_food_label`: build the 18-entry record in the order of the
source's dict literal, then turn every `None` into the empty string.
Only `extract_production_date` can raise; Python evaluates the dict
values in order, so the exception propagates out of the whole function. -/
def parse_food_label (text_lines : List String) : Except String Record := do
  let full_text := joinLines text_lines
  let productionDateV ← extract_production_date full_text
  let raw : List (String × Option FieldVal) :=
    [("name", (extract_food_name text_lines full_text).map .str),
     ("ingredients", (extract_ingredients text_lines full_text).map .str),
     ("netContent", (extract_net_content full_text).map .str),
     ("specification", (extract_specification full_text).map .str),
     ("producer", (extract_producer text_lines full_text).map .str),
     ("address", (extract_address text_lines full_text).map .str),
     ("contactInfo", (extract_contact_info full_text).map .str),
     ("productionDate", productionDateV.map .str),
     ("shelfLife", (extract_shelf_life full_text).map .str),
     ("storageConditions", (extract_storage_conditions text_lines full_text).map .str),
     ("foodProductionLicenseNumber", (extract_license_number full_text).map .str),
     ("productStandardCode", (extract_standard_code full_text).map .str),
     ("qualityGrade", (extract_quality_grade full_text).map .str),
     ("allergens", (extract_allergens full_text).map .str),
     ("nutrition", some (.nut (extract_nutrition text_lines full_text))),
     ("warning", (extract_warning text_lines full_text).map .str),
     ("irradiated", (extract_irradiated full_text).map .str),
     ("commodityBarcode", (extract_barcode full_text).map .str)]
  return raw.map (fun kv => (kv.1, kv.2.getD (.str "")))

/-- Lookup in the assembled record. -/
def recGet : Record → String → Option FieldVal
  | [], _ => none
  | (k, v) :: r, key => if k = key then some v else recGet r key

/-- String-field lookup on the result of `parse_food_label`. -/
def recStr (res : Except String Record) (key : String) : Option String :=
  match res with
  | .error _ => none
  | .ok r =>
    match recGet r key with
    | some (.str s) => some s
    | _ => none

/-- Python `s.startswith(pre)` on code points. -/
def pyStartsWith (s pre : String) : Bool := pre.data.isPrefixOf s.data

/-- The 18 field names of the assembled record, in source order. -/
def fieldNames : List String :=
  ["name", "ingredients", "netContent", "specification", "producer", "address",
   "contactInfo", "productionDate", "shelfLife", "storageConditions",
   "foodProductionLicenseNumber", "productStandardCode", "qualityGrade",
   "allergens", "nutrition", "warning", "irradiated", "commodityBarcode"]

/-- The six derived NRV keys. -/
def nrvKeys : List String :=
  ["energyNRV", "proteinNRV", "fatNRV", "carbohydrateNRV", "sugarNRV", "sodiumNRV"]

/-- Whether `calculate_nrv` writes the NRV key for nutrient `k`: `k` is
present with a non-empty value containing a parseable number. -/
def nrvCond (d : PyDict) (k : String) : Bool :=
  match pyGet d k with
  | some v => v ≠ "" && (reSearch numValPat v).isSome
  | none => false

/-- The converted float value `calculate_nrv` compares against the
reference: the parsed leading number, times the double `4.184` when the
first unit token found in the value string is `kcal` or `千卡`. -/
def nrvValueOf (v : String) (vm : MatchRes) : Fl :=
  match reSearch unitTokPat v with
  | some um =>
    if grpN um 1 = "kcal" ∨ grpN um 1 = "千卡" then flMul (flOfStr (grpN vm 1)) fl4p184
    else flOfStr (grpN vm 1)
  | none => flOfStr (grpN vm 1)

/-! ### Dictionary frame lemmas -/

theorem pyGet_pySet_eq (d : PyDict) (k v : String) :
    pyGet (pySet d k v) k = some v := by
  induction d with
  | nil => simp [pySet, pyGet]
  | cons hd tl ih =>
    by_cases h : hd.1 = k
    · simp [pySet, pyGet, h]
    · simp [pySet, pyGet, h, ih]

theorem pyGet_pySet_ne (d : PyDict) (k v key : String) (h : key ≠ k) :
    pyGet (pySet d k v) key = pyGet d key := by
  induction d with
  | nil =>
    simp only [pySet, pyGet]
    rw [if_neg (fun hh => h hh.symm)]
  | cons hd tl ih =>
    rcases hd with ⟨hk, hv2⟩
    by_cases h2 : hk = k
    · subst h2
      have hne : ¬hk = key := fun hh => h hh.symm
      simp only [pySet, if_pos rfl, pyGet]
      rw [if_neg hne, if_neg hne]
    · simp only [pySet, if_neg h2, pyGet]
      by_cases h3 : hk = key
      · rw [if_pos h3, if_pos h3]
      · rw [if_neg h3, if_neg h3, ih]

theorem pyContains_pySet (d : PyDict) (k v key : String) :
    pyContains (pySet d k v) key = (pyContains d key || key == k) := by
  by_cases h : key = k
  · subst h
    simp [pyContains, pyGet_pySet_eq]
  · simp [pyContains, pyGet_pySet_ne d k v key h, h]

/-- A step of `calculate_nrv` leaves every key other than its own NRV
key untouched. -/
theorem nrvStep_get_ne (d : PyDict) (kv : String × Nat) (key : String)
    (h : key ≠ kv.1 ++ "NRV") :
    pyGet (nrvStep d kv) key = pyGet d key := by
  unfold nrvStep
  cases pyGet d kv.1 with
  | none => rfl
  | some v =>
    by_cases hv : v = ""
    · simp [hv]
    · simp only [hv, if_false, ite_false]
      cases reSearch numValPat v with
      | none => rfl
      | some vm =>
        simp only
        split <;> exact pyGet_pySet_ne d _ _ key h

/-- A step of `calculate_nrv` writes exactly the formula of the source
to its NRV key when its nutrient is present, non-empty and parseable. -/
theorem nrvStep_get_set (d : PyDict) (kv : String × Nat) (v : String) (vm : MatchRes)
    (hv : pyGet d kv.1 = some v) (hne : v ≠ "")
    (hnum : reSearch numValPat v = some vm) :
    pyGet (nrvStep d kv) (kv.1 ++ "NRV") =
      some (natToDecStr (flTrunc (flMulNat (flDivNat (nrvValueOf v vm) kv.2) 100)) ++ "%") := by
  unfold nrvStep nrvValueOf
  rw [hv]
  simp only [hne, if_false, ite_false, hnum]
  cases reSearch unitTokPat v with
  | none => split <;> exact pyGet_pySet_eq d _ _
  | some um => split <;> split <;> exact pyGet_pySet_eq d _ _

theorem nrvStep_contains (d : PyDict) (kv : String × Nat) (key : String) :
    pyContains (nrvStep d kv) key =
      (pyContains d key || (key == kv.1 ++ "NRV" && nrvCond d kv.1)) := by
  unfold nrvStep nrvCond
  cases pyGet d kv.1 with
  | none => simp
  | some v =>
    by_cases hv : v = ""
    · simp [hv]
    · simp only [hv, if_false, ite_false]
      cases reSearch numValPat v with
      | none => simp
      | some vm =>
        dsimp only
        split <;> rw [pyContains_pySet] <;> simp [hv]

/-- `nrvCond` only reads its nutrient key, so other steps preserve it. -/
theorem nrvCond_nrvStep (d : PyDict) (kv : String × Nat) (k : String)
    (h : k ≠ kv.1 ++ "NRV") :
    nrvCond (nrvStep d kv) k = nrvCond d k := by
  unfold nrvCond
  rw [nrvStep_get_ne d kv k h]

/-- `calculate_nrv` unfolded to its six steps. -/
theorem calculate_nrv_unfold (d : PyDict) :
    calculate_nrv d =
      nrvStep (nrvStep (nrvStep (nrvStep (nrvStep (nrvStep d ("energy", 8400))
        ("protein", 60)) ("fat", 60)) ("carbohydrate", 300)) ("sugar", 50))
        ("sodium", 2000) := rfl

/-- Whatever the corpus, the assembled record exposes exactly the 18
field names, in source order. -/
theorem parse_food_label_keys (text_lines : List String) (r : Record)
    (h : parse_food_label text_lines = .ok r) :
    r.map Prod.fst = fieldNames := by
  unfold parse_food_label at h
  cases hpd : extract_production_date (joinLines text_lines) with
  | error e =>
    simp only [hpd, Bind.bind, Except.bind] at h
    exact Except.noConfusion h
  | ok v =>
    simp only [hpd, Bind.bind, Except.bind, pure, Except.pure, Except.ok.injEq] at h
    rw [← h]
    rfl

/-! ### Claim theorems -/

/-- Claim C1 (code bug): the claim says the record returned by
`parse_food_label` always carries the full 18-key field set.  On the
corpus `["见封口"]` the source returns no record at all: the
production-date extractor raises `IndexError: no such group`
(`match.group(1)` on the group-less pattern `见封口|见瓶身|见包装`) and
the exception propagates out of `parse_food_label`.  The general 18-key
shape on every non-raising run is `parse_food_label_keys` above. -/
theorem C1_parse_raises_on_see_seal :
    parse_food_label ["见封口"] = .error "no such group" := by decide

/-- Claim C2 (code bug): the claim says every extractor terminates
normally and degrades to a "not found" result.  The production-date
extractor violates this: its third pattern `见封口|见瓶身|见包装` has no
capturing group, it matches the fullText `见封口`, and the subsequent
`match.group(1)` raises `IndexError: no such group`. -/
theorem C2_production_date_raises :
    (reSearch datePat3 "见封口").isSome = true ∧ numGroups datePat3 = 0 ∧
    extract_production_date "见封口" = .error "no such group" := by decide

/-- Claim C3 (corrected): on fullText `能量 1450kJ 蛋白质10.2g 脂肪5.6g`
the source stores `protein = "10.2"`, not `"10.2g"` as claimed — the
protein (and fat) patterns capture only the number, the unit `g` lies
outside the capturing group, and the assembled value is
`group(1) + ''`. -/
theorem C3_counterexample :
    pyGet (extract_nutrition ["能量 1450kJ 蛋白质10.2g 脂肪5.6g"]
        "能量 1450kJ 蛋白质10.2g 脂肪5.6g") "protein" = some "10.2" ∧
    pyGet (extract_nutrition ["能量 1450kJ 蛋白质10.2g 脂肪5.6g"]
        "能量 1450kJ 蛋白质10.2g 脂肪5.6g") "protein" ≠ some "10.2g" := by decide

/-- Claim C3, amended: on that corpus the nutrition mapping is exactly
`energy = "1450kJ"`, `protein = "10.2"`, `fat = "5.6"` (number only for
protein and fat), extended with `energyNRV = "17%"`,
`proteinNRV = "17%"`, `fatNRV = "9%"`, and no other keys; the three
percentages agree with the exact `floor(value / reference * 100)` the
claim computes. -/
theorem C3_amended :
    extract_nutrition ["能量 1450kJ 蛋白质10.2g 脂肪5.6g"]
        "能量 1450kJ 蛋白质10.2g 脂肪5.6g" =
      [("energy", "1450kJ"), ("protein", "10.2"), ("fat", "5.6"),
       ("energyNRV", "17%"), ("proteinNRV", "17%"), ("fatNRV", "9%")] ∧
    ⌊(1450 : ℚ) / 8400 * 100⌋ = 17 ∧ ⌊(102 / 10 : ℚ) / 60 * 100⌋ = 17 ∧
    ⌊(56 / 10 : ℚ) / 60 * 100⌋ = 9 :=
  ⟨by decide, by norm_num, by norm_num, by norm_num⟩

/-- Claim C4 (corrected): the claim says the stored percentage is the
truncation of `value / reference * 100`.  The source computes that
quotient in IEEE-754 double precision before truncating, which falls
one below the exact truncation at representation boundaries: for a
protein entry `16.2`, the exact value `16.2 / 60 * 100 = 27` truncates
to 27, but the source stores `"26%"`. -/
theorem C4_counterexample :
    pyGet (calculate_nrv [("protein", "16.2")]) "proteinNRV" = some "26%" ∧
    ⌊(162 / 10 : ℚ) / 60 * 100⌋ = 27 :=
  ⟨by decide, by norm_num⟩

/-- Claim C5 (confirmed): on the six-line sample corpus the record has
`name = 全麦吐司面包`, an ingredients value beginning with
`全麦粉、小麦粉、水`, `netContent = 400g`, `producer = XX烘焙食品有限公司`,
`productionDate = 2025-04-20` and `shelfLife = 7天`. -/
theorem C5_sample_corpus :
    recStr (parse_food_label ["全麦吐司面包", "配料：全麦粉、小麦粉、水",
        "净含量：400g", "XX烘焙食品有限公司", "生产日期：2025-04-20", "保质期：7天"])
      "name" = some "全麦吐司面包" ∧
    (recStr (parse_food_label ["全麦吐司面包", "配料：全麦粉、小麦粉、水",
        "净含量：400g", "XX烘焙食品有限公司", "生产日期：2025-04-20", "保质期：7天"])
      "ingredients").map (fun s => pyStartsWith s "全麦粉、小麦粉、水") = some true ∧
    recStr (parse_food_label ["全麦吐司面包", "配料：全麦粉、小麦粉、水",
        "净含量：400g", "XX烘焙食品有限公司", "生产日期：2025-04-20", "保质期：7天"])
      "netContent" = some "400g" ∧
    recStr (parse_food_label ["全麦吐司面包", "配料：全麦粉、小麦粉、水",
        "净含量：400g", "XX烘焙食品有限公司", "生产日期：2025-04-20", "保质期：7天"])
      "producer" = some "XX烘焙食品有限公司" ∧
    recStr (parse_food_label ["全麦吐司面包", "配料：全麦粉、小麦粉、水",
        "净含量：400g", "XX烘焙食品有限公司", "生产日期：2025-04-20", "保质期：7天"])
      "productionDate" = some "2025-04-20" ∧
    recStr (parse_food_label ["全麦吐司面包", "配料：全麦粉、小麦粉、水",
        "净含量：400g", "XX烘焙食品有限公司", "生产日期：2025-04-20", "保质期：7天"])
      "shelfLife" = some "7天" := by decide

/-- Claim C6 (corrected): the claim says the unlabeled license fallback
accepts `SC` followed by 12–13 digits.  The source's pattern is
`SC[1|2]\d{13}`, which requires 14 characters after `SC`; `SC` followed
by 12 or by 13 digits is not matched. -/
theorem C6_counterexample :
    extract_license_number "SC123456789012" = none ∧
    extract_license_number "SC1234567890123" = none := by decide

/-- Claim C6, amended: the unlabeled fallback matches `SC` followed by
a character of the class `1|2` and 13 further digits (14 characters,
normally 14 digits starting with 1 or 2), or `QS` followed by 12
digits; the labeled pattern `生产许可证编号[:：]\s*(SC\d+)` accepts `SC`
with any digits; `SC` with only 12 or 13 trailing digits is not
matched. -/
theorem C6_amended :
    extract_license_number "SC12345678901234" = some "SC12345678901234" ∧
    extract_license_number "某某QS123456789012啊" = some "QS123456789012" ∧
    extract_license_number "生产许可证编号：SC123" = some "SC123" ∧
    extract_license_number "SC123456789012" = none ∧
    extract_license_number "SC1234567890123" = none := by decide

/-- Claim C7 (corrected): the claim says both ingredients and address
append up to the next 4 lines until the ~50-character threshold or a
different field label.  For address the source appends exactly one
following line: on `["地址：北京", "一二三四五六七八九", "十十十十十"]`
the result is `北京 一二三四五六七八九` (12 characters, well below the
threshold, and the next line carries no field label), yet the third
line is not appended. -/
theorem C7_counterexample :
    extract_address ["地址：北京", "一二三四五六七八九", "十十十十十"] ""
      = some "北京 一二三四五六七八九" ∧
    ("北京 一二三四五六七八九" : String).length ≤ 50 ∧
    pyIn "十" "北京 一二三四五六七八九" = false := by decide

/-- Claim C7, amended: when the labeled value is shorter than 10
characters, `extract_ingredients` appends the non-empty text of up to
the next 4 lines, stopping only once the accumulated length exceeds 50
(other field labels do not stop it); `extract_address` appends exactly
the next line, with no threshold; `extract_storage_conditions` always
appends up to the next 2 lines, stopping at an empty line or one
containing `生产`, `厂址` or `电话`. -/
theorem C7_amended :
    extract_address ["地址：北京", "一二三四五六七八九", "十十十十十"] ""
      = some "北京 一二三四五六七八九" ∧
    extract_ingredients ["配料：水", "净含量：500克", "电话：010-12345678"] ""
      = some "水 净含量：500克 电话：010-12345678" ∧
    extract_ingredients ["配料：水",
        "一一一一一一一一一一一一一一一一一一一一一一一一一一一一一一一一一一一一一一一一一一一一一一一一一一一一一一一一一一一一",
        "后续"] ""
      = some "水 一一一一一一一一一一一一一一一一一一一一一一一一一一一一一一一一一一一一一一一一一一一一一一一一一一一一一一一一一一一一" ∧
    extract_storage_conditions ["避光保存", "远离电话", "干燥"] "" = some "避光保存" ∧
    extract_storage_conditions ["避光保存", "甲", "乙", "丙"] "" = some "避光保存 甲 乙" := by
  decide

theorem textLinesLoop_filter (page : List (String × Fl)) :
    textLinesLoop page =
      (page.filter (fun r => flLt fl0p1 r.2 && pyStrip r.1 ≠ "")).map
        (fun r => pyStrip r.1) := by
  induction page with
  | nil => rfl
  | cons hd tl ih =>
    rcases hd with ⟨text, conf⟩
    simp only [textLinesLoop, List.filter_cons, ih]
    split <;> rename_i hcond <;> simp [hcond]

/-- Claim C8 (confirmed): the Line Corpus consists of exactly the
stripped texts of the regions whose confidence exceeds the double `0.1`
and whose stripped text is non-empty, in the original detection order,
and joining it with the newline separator gives the fullText that
`parse_food_label` searches. -/
theorem C8_line_corpus (ocr : List (List (String × Fl))) :
    extract_text_lines ocr =
      ((ocr.headD []).filter (fun r => flLt fl0p1 r.2 && pyStrip r.1 ≠ "")).map
        (fun r => pyStrip r.1) ∧
    joinLines (extract_text_lines ocr) =
      joinLines (((ocr.headD []).filter
          (fun r => flLt fl0p1 r.2 && pyStrip r.1 ≠ "")).map
        (fun r => pyStrip r.1)) := by
  have h : extract_text_lines ocr =
      ((ocr.headD []).filter (fun r => flLt fl0p1 r.2 && pyStrip r.1 ≠ "")).map
        (fun r => pyStrip r.1) := by
    cases ocr with
    | nil => rfl
    | cons page rest => exact textLinesLoop_filter page
  exact ⟨h, congrArg joinLines h⟩

/-- Claim C9 (confirmed): on the empty line list `parse_food_label`
returns (does not raise) the full 18-key record, every string field the
empty string and the nutrition field the empty mapping. -/
theorem C9_empty_corpus :
    parse_food_label [] = .ok
      [("name", .str ""), ("ingredients", .str ""), ("netContent", .str ""),
       ("specification", .str ""), ("producer", .str ""), ("address", .str ""),
       ("contactInfo", .str ""), ("productionDate", .str ""),
       ("shelfLife", .str ""), ("storageConditions", .str ""),
       ("foodProductionLicenseNumber", .str ""), ("productStandardCode", .str ""),
       ("qualityGrade", .str ""), ("allergens", .str ""), ("nutrition", .nut []),
       ("warning", .str ""), ("irradiated", .str ""),
       ("commodityBarcode", .str "")] := by decide

/-- Claim C10 (corrected): the claim says `calculate_nrv` leaves every
pre-existing key's value unchanged.  A pre-existing `<nutrient>NRV` key
is overwritten whenever the nutrient itself is present and parseable:
with input `{energy: "8400kJ", energyNRV: "0%"}` the pre-existing
`energyNRV = "0%"` becomes `"100%"`. -/
theorem C10_counterexample :
    pyGet [("energy", "8400kJ"), ("energyNRV", "0%")] "energyNRV" = some "0%" ∧
    calculate_nrv [("energy", "8400kJ"), ("energyNRV", "0%")] =
      [("energy", "8400kJ"), ("energyNRV", "100%")] := by decide

/-- Claim C4, amended: for every nutrient entry processed by
`calculate_nrv` — a key among energy, protein, fat, carbohydrate,
sugar, sodium (references 8400, 60, 60, 300, 50, 2000) holding a
non-empty value with a parseable leading number — the mapping gains
`<nutrient>NRV = "<p>%"` where `p` truncates the double-precision
evaluation of `value / reference * 100` (one below the exact truncation
at representation boundaries), and the value is first multiplied by the
double `4.184` exactly when the first unit token found in the value
string is `kcal` or `千卡`; no other unit conversion is applied to any
nutrient. -/
theorem C4_amended (d : PyDict) (k : String) (ref : Nat) (v : String) (vm : MatchRes)
    (hk : (k, ref) ∈ nrv_values) (hv : pyGet d k = some v) (hne : v ≠ "")
    (hnum : reSearch numValPat v = some vm) :
    pyGet (calculate_nrv d) (k ++ "NRV") =
      some (natToDecStr (flTrunc (flMulNat (flDivNat (nrvValueOf v vm) ref) 100))
        ++ "%") := by
  simp only [nrv_values, List.mem_cons, List.mem_singleton, Prod.mk.injEq,
    List.not_mem_nil, or_false] at hk
  rw [calculate_nrv_unfold]
  rcases hk with ⟨rfl, rfl⟩ | ⟨rfl, rfl⟩ | ⟨rfl, rfl⟩ | ⟨rfl, rfl⟩ | ⟨rfl, rfl⟩ | ⟨rfl, rfl⟩
  · rw [nrvStep_get_ne _ ("sodium", 2000) _ (by decide),
      nrvStep_get_ne _ ("sugar", 50) _ (by decide),
      nrvStep_get_ne _ ("carbohydrate", 300) _ (by decide),
      nrvStep_get_ne _ ("fat", 60) _ (by decide),
      nrvStep_get_ne _ ("protein", 60) _ (by decide)]
    exact nrvStep_get_set d ("energy", 8400) v vm hv hne hnum
  · rw [nrvStep_get_ne _ ("sodium", 2000) _ (by decide),
      nrvStep_get_ne _ ("sugar", 50) _ (by decide),
      nrvStep_get_ne _ ("carbohydrate", 300) _ (by decide),
      nrvStep_get_ne _ ("fat", 60) _ (by decide)]
    exact nrvStep_get_set _ ("protein", 60) v vm
      (by rw [nrvStep_get_ne d ("energy", 8400) _ (by decide)]; exact hv) hne hnum
  · rw [nrvStep_get_ne _ ("sodium", 2000) _ (by decide),
      nrvStep_get_ne _ ("sugar", 50) _ (by decide),
      nrvStep_get_ne _ ("carbohydrate", 300) _ (by decide)]
    exact nrvStep_get_set _ ("fat", 60) v vm
      (by rw [nrvStep_get_ne _ ("protein", 60) _ (by decide),
           nrvStep_get_ne d ("energy", 8400) _ (by decide)]; exact hv) hne hnum
  · rw [nrvStep_get_ne _ ("sodium", 2000) _ (by decide),
      nrvStep_get_ne _ ("sugar", 50) _ (by decide)]
    exact nrvStep_get_set _ ("carbohydrate", 300) v vm
      (by rw [nrvStep_get_ne _ ("fat", 60) _ (by decide),
           nrvStep_get_ne _ ("protein", 60) _ (by decide),
           nrvStep_get_ne d ("energy", 8400) _ (by decide)]; exact hv) hne hnum
  · rw [nrvStep_get_ne _ ("sodium", 2000) _ (by decide)]
    exact nrvStep_get_set _ ("sugar", 50) v vm
      (by rw [nrvStep_get_ne _ ("carbohydrate", 300) _ (by decide),
           nrvStep_get_ne _ ("fat", 60) _ (by decide),
           nrvStep_get_ne _ ("protein", 60) _ (by decide),
           nrvStep_get_ne d ("energy", 8400) _ (by decide)]; exact hv) hne hnum
  · exact nrvStep_get_set _ ("sodium", 2000) v vm
      (by rw [nrvStep_get_ne _ ("sugar", 50) _ (by decide),
           nrvStep_get_ne _ ("carbohydrate", 300) _ (by decide),
           nrvStep_get_ne _ ("fat", 60) _ (by decide),
           nrvStep_get_ne _ ("protein", 60) _ (by decide),
           nrvStep_get_ne d ("energy", 8400) _ (by decide)]; exact hv) hne hnum

/-- Witness for C4: the claim's `200kcal` energy entry, converted with
the double `4.184` and compared against the 8400 kJ reference, yields
`energyNRV = "9%"`. -/
theorem C4_amended_witness :
    pyGet (calculate_nrv [("energy", "200kcal")]) ("energy" ++ "NRV") =
      some (natToDecStr (flTrunc (flMulNat (flDivNat
        (nrvValueOf "200kcal" ⟨"200".data, [(1, "200".data)]⟩) 8400) 100)) ++ "%") ∧
    natToDecStr (flTrunc (flMulNat (flDivNat
        (nrvValueOf "200kcal" ⟨"200".data, [(1, "200".data)]⟩) 8400) 100)) ++ "%"
      = "9%" :=
  ⟨C4_amended [("energy", "200kcal")] "energy" 8400 "200kcal"
      ⟨"200".data, [(1, "200".data)]⟩ (by decide) (by decide) (by decide) (by decide),
   by decide⟩

/-- How `calculate_nrv` transforms key membership: a key is present in
the output iff it was present in the input or it is the NRV key of a
nutrient that is present, non-empty and parseable. -/
theorem calc_contains (d : PyDict) (key : String) :
    pyContains (calculate_nrv d) key =
      ((((((pyContains d key ||
        (key == "energy" ++ "NRV" && nrvCond d "energy")) ||
        (key == "protein" ++ "NRV" && nrvCond d "protein")) ||
        (key == "fat" ++ "NRV" && nrvCond d "fat")) ||
        (key == "carbohydrate" ++ "NRV" && nrvCond d "carbohydrate")) ||
        (key == "sugar" ++ "NRV" && nrvCond d "sugar")) ||
        (key == "sodium" ++ "NRV" && nrvCond d "sodium")) := by
  rw [calculate_nrv_unfold, nrvStep_contains, nrvStep_contains, nrvStep_contains,
    nrvStep_contains, nrvStep_contains, nrvStep_contains,
    nrvCond_nrvStep _ ("energy", 8400) "protein" (by decide),
    nrvCond_nrvStep _ ("protein", 60) "fat" (by decide),
    nrvCond_nrvStep _ ("energy", 8400) "fat" (by decide),
    nrvCond_nrvStep _ ("fat", 60) "carbohydrate" (by decide),
    nrvCond_nrvStep _ ("protein", 60) "carbohydrate" (by decide),
    nrvCond_nrvStep _ ("energy", 8400) "carbohydrate" (by decide),
    nrvCond_nrvStep _ ("carbohydrate", 300) "sugar" (by decide),
    nrvCond_nrvStep _ ("fat", 60) "sugar" (by decide),
    nrvCond_nrvStep _ ("protein", 60) "sugar" (by decide),
    nrvCond_nrvStep _ ("energy", 8400) "sugar" (by decide),
    nrvCond_nrvStep _ ("sugar", 50) "sodium" (by decide),
    nrvCond_nrvStep _ ("carbohydrate", 300) "sodium" (by decide),
    nrvCond_nrvStep _ ("fat", 60) "sodium" (by decide),
    nrvCond_nrvStep _ ("protein", 60) "sodium" (by decide),
    nrvCond_nrvStep _ ("energy", 8400) "sodium" (by decide)]

/-- Claim C10, amended: `calculate_nrv` removes no key and leaves the
value of every pre-existing key unchanged except possibly the six
`<nutrient>NRV` keys; the only keys it adds are of that form; and the
NRV key of a nutrient is present in the output iff it was present in
the input or the nutrient key holds a non-empty value containing a
parseable number (in which case it is written, overwriting any
pre-existing value). -/
theorem C10_amended (d : PyDict) :
    (∀ key, pyContains d key = true → pyContains (calculate_nrv d) key = true) ∧
    (∀ key, key ∉ nrvKeys → pyGet (calculate_nrv d) key = pyGet d key) ∧
    (∀ key, pyContains (calculate_nrv d) key = true →
      pyContains d key = true ∨ key ∈ nrvKeys) ∧
    (∀ p ∈ nrv_values,
      pyContains (calculate_nrv d) (p.1 ++ "NRV") =
        (pyContains d (p.1 ++ "NRV") || nrvCond d p.1)) := by
  refine ⟨?_, ?_, ?_, ?_⟩
  · intro key h
    rw [calc_contains, h]
    simp
  · intro key hmem
    simp only [nrvKeys, List.mem_cons, List.not_mem_nil, or_false, not_or] at hmem
    obtain ⟨h1, h2, h3, h4, h5, h6⟩ := hmem
    rw [calculate_nrv_unfold,
      nrvStep_get_ne _ ("sodium", 2000) _ (fun hh => h6 (hh.trans (by decide))),
      nrvStep_get_ne _ ("sugar", 50) _ (fun hh => h5 (hh.trans (by decide))),
      nrvStep_get_ne _ ("carbohydrate", 300) _ (fun hh => h4 (hh.trans (by decide))),
      nrvStep_get_ne _ ("fat", 60) _ (fun hh => h3 (hh.trans (by decide))),
      nrvStep_get_ne _ ("protein", 60) _ (fun hh => h2 (hh.trans (by decide))),
      nrvStep_get_ne _ ("energy", 8400) _ (fun hh => h1 (hh.trans (by decide)))]
  · intro key h
    rw [calc_contains] at h
    simp only [Bool.or_eq_true, Bool.and_eq_true, beq_iff_eq] at h
    rcases h with (((((h | ⟨he, _⟩) | ⟨he, _⟩) | ⟨he, _⟩) | ⟨he, _⟩) | ⟨he, _⟩) | ⟨he, _⟩
    · exact Or.inl h
    all_goals exact Or.inr (by rw [he]; decide)
  · intro p hp
    rcases p with ⟨p1, p2⟩
    simp only [nrv_values, List.mem_cons, List.not_mem_nil, or_false,
      Prod.mk.injEq] at hp
    rcases hp with ⟨h1, _⟩ | ⟨h1, _⟩ | ⟨h1, _⟩ | ⟨h1, _⟩ | ⟨h1, _⟩ | ⟨h1, _⟩ <;>
      subst h1 <;> rw [calc_contains] <;> simp

/-- Witness for C10: with input `{fat: "3g"}` the pre-existing key
survives, an unrelated key is untouched, and the `fatNRV` key appears
per the presence rule. -/
theorem C10_amended_witness :
    pyContains (calculate_nrv [("fat", "3g")]) "fat" = true ∧
    pyGet (calculate_nrv [("fat", "3g")]) "name" = pyGet [("fat", "3g")] "name" ∧
    pyContains (calculate_nrv [("fat", "3g")]) ("fat" ++ "NRV") =
      (pyContains [("fat", "3g")] ("fat" ++ "NRV") || nrvCond [("fat", "3g")] "fat") :=
  ⟨(C10_amended _).1 "fat" (by decide), (C10_amended _).2.1 "name" (by decide),
   (C10_amended _).2.2.2 ("fat", 60) (by decide)⟩

end FoodTag
